import Mathlib

/-!
Verification of the Paystack ticket-fulfillment webhook backend.

The development shallowly embeds `src/backend/server.js` (the
`/api/paystack-webhook` handler) and `src/backend/models/Purchase.js`
(the Purchase schema with its unique `paystackReference` index).

External collaborators are modelled as parameters of an environment:
  * `hmac`     — `crypto.createHmac('sha512', secret).update(body).digest('hex')`
  * `dbFail`   — whether MongoDB is failing (connectivity etc.)
  * `unitOk`   — whether qrcode/sharp/sendgrid succeed for the k-th unit
                 processed in this request (asset present, transport up)
  * `randBytes`— the bytes `crypto.randomBytes(4)` returns for the k-th unit
`JSON.parse` is modelled by a `parseJson` parameter returning `none`
exactly when `JSON.parse` would throw on the raw body.
-/

namespace TicketBackend

/-- One cart line as found in `metadata.cart`: `{ type, quantity, name }`.
Fields are `Option` because the payload is duck-typed JSON and any field
may be absent (JS `undefined`). -/
structure CartItem where
  type : Option String
  quantity : Option Int
  name : Option String
deriving Repr, DecidableEq

/-- `event.data.customer` as accessed by the handler. -/
structure Customer where
  email : Option String
deriving Repr, DecidableEq

/-- `event.data.metadata`: `full_name` and `cart` as stored by `/api/pay`. -/
structure Metadata where
  full_name : Option String
  cart : Option (List CartItem)
deriving Repr, DecidableEq

/-- `event.data` as destructured by
`const { customer, metadata, reference, amount } = event.data`. -/
structure EventData where
  customer : Option Customer
  metadata : Option Metadata
  reference : Option String
  amount : Option Int
deriving Repr, DecidableEq

/-- The parsed webhook payload: `event.event` and `event.data`.
`data := none` models `event.data` being absent (destructuring throws). -/
structure PEvent where
  event : Option String
  data : Option EventData
deriving Repr, DecidableEq

/-- One inventory entry of a stored Purchase:
`{ ticketType: item.type, quantity: item.quantity, name: item.name }`. -/
structure InvItem where
  ticketType : Option String
  quantity : Option Int
  name : Option String
deriving Repr, DecidableEq

/-- A document of the `Purchase` collection (`models/Purchase.js`). -/
structure PurchaseRecord where
  buyerName : Option String
  buyerEmail : Option String
  inventory : List InvItem
  totalAmount : Option Int
  paystackReference : Option String
deriving Repr, DecidableEq

/-- The Purchase collection: list of stored documents, uniquely indexed on
`paystackReference`. -/
abbrev Ledger := List PurchaseRecord

/-- The inbound HTTP request: raw body bytes (as a string) and the
`x-paystack-signature` header. -/
structure Request where
  rawBody : String
  signature : String
deriving Repr, DecidableEq

/-- The environment of external effects for one request. -/
structure Env where
  hmac : String → String → String
  dbFail : Bool
  unitOk : Nat → Bool
  randBytes : Nat → List Nat

/-- One ticket instance to fulfill: the iteration state of the nested
loops `for (const item of cart) for (let i = 0; i < item.quantity; i++)`.
`lineIdx` is the cart-line position, `unitIdx` the intra-line index `i`. -/
structure TUnit where
  ty : Option String
  nm : Option String
  lineIdx : Nat
  unitIdx : Nat
deriving Repr, DecidableEq

/-- Observable side effects of the handler, in order of occurrence.
`saved` is the successful `newPurchase.save()`; `dbError true` is the
duplicate-key error (`dbError.code === 11000`), `dbError false` any other
save error; `emailSent` is a successful `sgMail.send` for one unit;
`unitFailed` is a caught per-unit `ticketError`. -/
inductive Action where
  | saved (ref : Option String)
  | dbError (dup : Bool)
  | emailSent (toAddress : Option String) (ticketId : String) (unit : TUnit)
  | unitFailed (unit : TUnit)
deriving Repr, DecidableEq

/-- Lowercase hexadecimal digit for a value below 16 (as produced by
Node's `Buffer.prototype.toString('hex')`). -/
def hexDigit (n : Nat) : Char :=
  if n < 10 then Char.ofNat (48 + n) else Char.ofNat (87 + n)

/-- Two-digit lowercase hex encoding of one byte. -/
def byteHex (b : Nat) : List Char :=
  [hexDigit (b / 16), hexDigit (b % 16)]

/-- `buffer.toString('hex')`: lowercase hex of a byte sequence. -/
def bytesToHex (bs : List Nat) : String :=
  ⟨bs.flatMap byteHex⟩

/-- JavaScript `String.prototype.toUpperCase()` (ASCII fragment). -/
def jsToUpper (s : String) : String :=
  ⟨s.data.map Char.toUpper⟩

/-- The ticket identifier built at server.js line 76 from the cart item's
`type` and the 4 bytes returned by `crypto.randomBytes(4)`:
`ULES-${item.type.toUpperCase()}-${bytes.toString('hex').toUpperCase()}`. -/
def ticketId (ty : String) (bs : List Nat) : String :=
  "ULES-" ++ jsToUpper ty ++ "-" ++ jsToUpper (bytesToHex bs)

/-- Number of iterations of the inner loop
`for (let i = 0; i < item.quantity; i++)`: an absent quantity
(`i < undefined` is false) or a negative one runs zero iterations. -/
def iters (item : CartItem) : Nat :=
  (item.quantity.getD 0).toNat

/-- The unit in flight at cart line `li`, inner index `i`. -/
def mkUnit (item : CartItem) (li i : Nat) : TUnit :=
  ⟨item.type, item.name, li, i⟩

/-- The `try { ... } catch (ticketError)` body for one unit (server.js
lines 75-104): reading `item.type.toUpperCase()` on an absent `type`
throws, as does any qrcode/sharp/sendgrid failure (`env.unitOk k` false);
either way the error is caught and only logged. Otherwise the ticket is
generated and the email sent. `k` is the request-global unit counter
selecting this unit's randomness and external outcomes. -/
def unitAction (env : Env) (toAddress : Option String) (k : Nat) (u : TUnit) : Action :=
  match u.ty with
  | none => .unitFailed u
  | some t =>
    if env.unitOk k then .emailSent toAddress (ticketId t (env.randBytes k)) u
    else .unitFailed u

/-- The inner quantity loop: `r` iterations remain, the next has inner
index `i` and global unit counter `k`. -/
def fulfillItem (env : Env) (toAddress : Option String) (item : CartItem) (li : Nat) :
    Nat → Nat → Nat → List Action
  | _, _, 0 => []
  | k, i, r + 1 =>
    unitAction env toAddress k (mkUnit item li i) ::
      fulfillItem env toAddress item li (k + 1) (i + 1) r

/-- The outer cart loop `for (const item of cart)` starting at line index
`li` with global unit counter `k`. -/
def fulfillCartAux (env : Env) (toAddress : Option String) : Nat → Nat → List CartItem → List Action
  | _, _, [] => []
  | li, k, item :: rest =>
    fulfillItem env toAddress item li k 0 (iters item) ++
      fulfillCartAux env toAddress (li + 1) (k + iters item) rest

/-- Step 2 of the handler: generate and email each individual ticket
(server.js lines 73-106). -/
def fulfillCart (env : Env) (toAddress : Option String) (cart : List CartItem) : List Action :=
  fulfillCartAux env toAddress 0 0 cart

/-- Mongoose client-side validation of the `required: true` fields of
`PurchaseSchema`: `buyerName`, `buyerEmail`, `totalAmount`,
`paystackReference`. -/
def validRecord (r : PurchaseRecord) : Bool :=
  r.buyerName.isSome && r.buyerEmail.isSome && r.totalAmount.isSome &&
    r.paystackReference.isSome

/-- Outcome of `newPurchase.save()`. -/
inductive SaveOutcome where
  | ok (l : Ledger)
  | errDup
  | errOther
deriving Repr, DecidableEq

/-- `newPurchase.save()` against the collection with its unique index on
`paystackReference`: a failing database or a validation failure rejects
with an error whose `code` is not 11000; inserting a reference already
stored rejects with the duplicate-key error `code === 11000`; otherwise
the document is appended. -/
def trySave (env : Env) (l : Ledger) (r : PurchaseRecord) : SaveOutcome :=
  if env.dbFail then .errOther
  else if !validRecord r then .errOther
  else if l.any (fun p => p.paystackReference == r.paystackReference) then .errDup
  else .ok (l ++ [r])

/-- Result of one handler invocation: the HTTP status sent (none when an
uncaught exception escaped before any `res.sendStatus`), the collection
after the request, the side effects in order, and whether an uncaught
exception escaped the handler. -/
structure HResult where
  status : Option Nat
  ledger : Ledger
  trace : List Action
  threw : Bool
deriving Repr, DecidableEq

/-- The `/api/paystack-webhook` handler (server.js lines 35-110).
`parseJson` models `JSON.parse` on the raw body (`none` = throws).
Control flow mirrors the source:
  * signature mismatch → 401, nothing else happens;
  * `JSON.parse` throw, absent `event.data` (destructuring throws) or
    absent `metadata` (`metadata.cart` throws) → uncaught exception;
  * absent `customer`: `customer.email` throws inside the save `try`
    (caught, save never reached), then the template literal at line 70
    rethrows outside any `try` → uncaught exception;
  * duplicate-key save error → early 200, no fulfillment;
  * any other save error → logged, fulfillment proceeds;
  * then the per-unit loop, then 200. -/
def webhookHandler (env : Env) (secret : String)
    (parseJson : String → Option PEvent) (ledger : Ledger) (req : Request) :
    HResult :=
  if env.hmac secret req.rawBody ≠ req.signature then
    { status := some 401, ledger := ledger, trace := [], threw := false }
  else
    match parseJson req.rawBody with
    | none => { status := none, ledger := ledger, trace := [], threw := true }
    | some ev =>
      if ev.event = some "charge.success" then
        match ev.data with
        | none => { status := none, ledger := ledger, trace := [], threw := true }
        | some d =>
          match d.metadata with
          | none => { status := none, ledger := ledger, trace := [], threw := true }
          | some md =>
            match d.customer with
            | none => { status := none, ledger := ledger, trace := [], threw := true }
            | some c =>
              let cart := md.cart.getD []
              let rec0 : PurchaseRecord :=
                { buyerName := md.full_name
                  buyerEmail := c.email
                  inventory := cart.map fun it =>
                    { ticketType := it.type, quantity := it.quantity, name := it.name }
                  totalAmount := d.amount
                  paystackReference := d.reference }
              match trySave env ledger rec0 with
              | .errDup =>
                { status := some 200, ledger := ledger
                  trace := [.dbError true], threw := false }
              | .errOther =>
                { status := some 200, ledger := ledger
                  trace := .dbError false :: fulfillCart env c.email cart
                  threw := false }
              | .ok l2 =>
                { status := some 200, ledger := l2
                  trace := .saved d.reference :: fulfillCart env c.email cart
                  threw := false }
      else
        { status := some 200, ledger := ledger, trace := [], threw := false }

/-- Map with an explicit running index starting at `k`. -/
def mapIdxFrom (f : Nat → α → β) : Nat → List α → List β
  | _, [] => []
  | k, a :: as => f k a :: mapIdxFrom f (k + 1) as

/-- The spec's Unit Expander on the suffix of the cart starting at line
index `li`: each line contributes `quantity` units in intra-line index
order, lines in cart order. -/
def expandAux : Nat → List CartItem → List TUnit
  | _, [] => []
  | li, item :: rest => (List.range (iters item)).map (mkUnit item li) ++ expandAux (li + 1) rest

/-- The spec's Unit Expander:
`expand(cart) -> sequence of Unit` (spec section 4.2). -/
def expand (cart : List CartItem) : List TUnit :=
  expandAux 0 cart

/-- Number of stored Purchase documents whose `paystackReference` equals
`ref`. -/
def refCount (l : Ledger) (ref : Option String) : Nat :=
  (l.filter fun p => p.paystackReference == ref).length

/-- The unit an action concerns, when it is a per-unit action. -/
def Action.unitOf : Action → Option TUnit
  | .emailSent _ _ u => some u
  | .unitFailed u => some u
  | _ => none

/-- Whether an action is the outcome of the ledger write. -/
def Action.isLedgerAct : Action → Bool
  | .saved _ => true
  | .dbError _ => true
  | _ => false

/-- Whether an action belongs to per-unit fulfillment. -/
def Action.isUnitAct : Action → Bool
  | .emailSent _ _ _ => true
  | .unitFailed _ => true
  | _ => false

/-- Whether an action is a successfully sent email. -/
def Action.isEmail : Action → Bool
  | .emailSent _ _ _ => true
  | _ => false

theorem mapIdxFrom_length (f : Nat → α → β) (k : Nat) (l : List α) :
    (mapIdxFrom f k l).length = l.length := by
  induction l generalizing k with
  | nil => rfl
  | cons a as ih => simp [mapIdxFrom, ih]

theorem mapIdxFrom_append (f : Nat → α → β) (k : Nat) (l1 l2 : List α) :
    mapIdxFrom f k (l1 ++ l2) = mapIdxFrom f k l1 ++ mapIdxFrom f (k + l1.length) l2 := by
  induction l1 generalizing k with
  | nil => simp [mapIdxFrom]
  | cons a as ih =>
    have hk : k + 1 + as.length = k + (as.length + 1) := by omega
    simp only [List.cons_append, mapIdxFrom, List.length_cons, List.append_eq, ih, hk]

theorem mapIdxFrom_get (f : Nat → α → β) (k : Nat) (l : List α) (i : Nat) :
    (mapIdxFrom f k l).get? i = (l.get? i).map (f (k + i)) := by
  induction l generalizing k i with
  | nil => simp [mapIdxFrom]
  | cons a as ih =>
    cases i with
    | zero => simp [mapIdxFrom]
    | succ j =>
      have hk : k + 1 + j = k + (j + 1) := by omega
      simp only [mapIdxFrom, List.get?_cons_succ, ih, hk]

/-- The inner loop of the handler processes exactly the units the spec's
expander assigns to this line, in intra-line order, pairing the `j`-th
one with unit counter `k + j`. -/
theorem fulfillItem_eq (env : Env) (e : Option String) (item : CartItem) (li k i r : Nat) :
    fulfillItem env e item li k i r =
      mapIdxFrom (unitAction env e) k ((List.range' i r).map (mkUnit item li)) := by
  induction r generalizing k i with
  | zero => rfl
  | succ r ih => simp [fulfillItem, List.range'_succ, mapIdxFrom, ih]

/-- The nested fulfillment loops coincide with mapping the per-unit step
over the spec's expansion of the cart. -/
theorem fulfillCartAux_eq (env : Env) (e : Option String) (cart : List CartItem)
    (li k : Nat) :
    fulfillCartAux env e li k cart = mapIdxFrom (unitAction env e) k (expandAux li cart) := by
  induction cart generalizing li k with
  | nil => rfl
  | cons item rest ih =>
    simp only [fulfillCartAux, expandAux, mapIdxFrom_append, ih,
      List.length_map, List.length_range]
    congr 1
    rw [fulfillItem_eq, List.range_eq_range']

/-- The handler's fulfillment phase, as a map over the spec's expander. -/
theorem fulfillCart_eq (env : Env) (e : Option String) (cart : List CartItem) :
    fulfillCart env e cart = mapIdxFrom (unitAction env e) 0 (expand cart) := by
  rw [fulfillCart, fulfillCartAux_eq, expand]

theorem expandAux_length (li : Nat) (cart : List CartItem) :
    (expandAux li cart).length = (cart.map iters).sum := by
  induction cart generalizing li with
  | nil => rfl
  | cons item rest ih => simp [expandAux, ih]

theorem unitAction_isUnitAct (env : Env) (e : Option String) (k : Nat) (u : TUnit) :
    (unitAction env e k u).isUnitAct = true := by
  unfold unitAction
  cases u.ty with
  | none => rfl
  | some t =>
    by_cases h : env.unitOk k = true
    · simp [h, Action.isUnitAct]
    · simp [h, Action.isUnitAct]

theorem fulfillCart_all_unitAct (env : Env) (e : Option String) (cart : List CartItem) :
    ∀ a ∈ fulfillCart env e cart, a.isUnitAct = true := by
  rw [fulfillCart_eq]
  generalize expand cart = us
  generalize 0 = k
  induction us generalizing k with
  | nil => intro a ha; cases ha
  | cons u rest ih =>
    intro a ha
    rcases List.mem_cons.mp ha with h | h
    · exact h ▸ unitAction_isUnitAct env e k u
    · exact ih (k + 1) a h

theorem expandAux_lineIdx_le (li : Nat) (cart : List CartItem) :
    ∀ u ∈ expandAux li cart, li ≤ u.lineIdx := by
  induction cart generalizing li with
  | nil => intro u hu; cases hu
  | cons item rest ih =>
    intro u hu
    rcases List.mem_append.mp hu with h | h
    · rcases List.mem_map.mp h with ⟨i, _, rfl⟩
      simp [mkUnit]
    · exact Nat.le_of_succ_le (ih (li + 1) u h)

/-- Every expanded unit traces back to a cart line: it sits `u.lineIdx - li`
lines in, carries that line's `type` and `name`, and its intra-line index
is below the line's iteration count. -/
theorem expandAux_mem_char (li : Nat) (cart : List CartItem) :
    ∀ u ∈ expandAux li cart, ∃ j item, cart.get? j = some item ∧
      u.lineIdx = li + j ∧ u.ty = item.type ∧ u.nm = item.name ∧
      u.unitIdx < iters item := by
  induction cart generalizing li with
  | nil => intro u hu; cases hu
  | cons item rest ih =>
    intro u hu
    rcases List.mem_append.mp hu with h | h
    · rcases List.mem_map.mp h with ⟨i, hi, rfl⟩
      exact ⟨0, item, rfl, by simp [mkUnit], rfl, rfl, by simpa [mkUnit] using hi⟩
    · obtain ⟨j, item2, hj, hl, ht, hn, hq⟩ := ih (li + 1) u h
      exact ⟨j + 1, item2, by simpa using hj, by omega, ht, hn, hq⟩

/-- Expanded units are in cart-line order, then intra-line index order. -/
theorem expandAux_pairwise (cart : List CartItem) (li : Nat) :
    List.Pairwise (fun u v : TUnit => u.lineIdx < v.lineIdx ∨
      (u.lineIdx = v.lineIdx ∧ u.unitIdx < v.unitIdx)) (expandAux li cart) := by
  induction cart generalizing li with
  | nil => exact List.Pairwise.nil
  | cons item rest ih =>
    rw [expandAux, List.pairwise_append]
    refine ⟨?_, ih (li + 1), ?_⟩
    · rw [List.pairwise_map]
      refine List.Pairwise.imp ?_ (List.pairwise_lt_range (iters item))
      intro i j hij
      exact Or.inr ⟨rfl, hij⟩
    · intro a ha b hb
      rcases List.mem_map.mp ha with ⟨i, _, rfl⟩
      have hb2 := expandAux_lineIdx_le (li + 1) rest b hb
      refine Or.inl ?_
      simp only [mkUnit]
      omega

theorem unitAction_unitOf (env : Env) (e : Option String) (k : Nat) (u : TUnit) :
    (unitAction env e k u).unitOf = some u := by
  unfold unitAction
  cases u.ty with
  | none => rfl
  | some t =>
    by_cases h : env.unitOk k = true
    · simp [h, Action.unitOf]
    · simp [h, Action.unitOf]

/-- Projecting the units back out of the fulfillment trace recovers the
expanded unit list. -/
theorem mapIdxFrom_unitOf (env : Env) (e : Option String) (k : Nat) (us : List TUnit) :
    (mapIdxFrom (unitAction env e) k us).filterMap Action.unitOf = us := by
  induction us generalizing k with
  | nil => rfl
  | cons u rest ih => simp [mapIdxFrom, List.filterMap_cons, unitAction_unitOf, ih]

/-- A cart whose quantities are exactly the non-negative integers `qs`
has per-line iteration counts `qs`. -/
theorem map_iters_eq (cart : List CartItem) (qs : List Nat)
    (hq : cart.map CartItem.quantity = qs.map (fun q => some ((q : Nat) : Int))) :
    cart.map iters = qs := by
  induction cart generalizing qs with
  | nil => cases qs with
    | nil => rfl
    | cons q qs => simp at hq
  | cons item rest ih =>
    cases qs with
    | nil => simp at hq
    | cons q qs =>
      simp only [List.map_cons, List.cons.injEq] at hq ⊢
      exact ⟨by simp [iters, hq.1], ih qs hq.2⟩

/-- The uppercase hexadecimal alphabet. -/
def upperHexChars : List Char :=
  ['0', '1', '2', '3', '4', '5', '6', '7', '8', '9', 'A', 'B', 'C', 'D', 'E', 'F']

theorem hexDigit_toUpper_mem (n : Nat) (h : n < 16) :
    Char.toUpper (hexDigit n) ∈ upperHexChars := by
  revert n
  decide

theorem byteHex_length (b : Nat) : (byteHex b).length = 2 := rfl

theorem flatMap_byteHex_length (bs : List Nat) :
    (bs.flatMap byteHex).length = 2 * bs.length := by
  induction bs with
  | nil => rfl
  | cons b rest ih =>
    simp only [List.flatMap_cons, List.length_append, byteHex_length, ih, List.length_cons]
    omega

theorem byteHex_mem (b : Nat) (hb : b < 256) :
    ∀ c ∈ byteHex b, Char.toUpper c ∈ upperHexChars := by
  intro c hc
  rcases List.mem_cons.mp hc with h | h
  · exact h ▸ hexDigit_toUpper_mem (b / 16) (by omega)
  · rcases List.mem_cons.mp h with h2 | h2
    · exact h2 ▸ hexDigit_toUpper_mem (b % 16) (by omega)
    · cases h2

/-! Concrete fixtures used by the closed instantiations below. -/

/-- A healthy environment: the signature of body `b` is `sig-` ++ `b`,
the database is up, all units succeed, randomness is fixed. -/
def envOk : Env :=
  { hmac := fun _ b => "sig-" ++ b
    dbFail := false
    unitOk := fun _ => true
    randBytes := fun _ => [18, 171, 205, 239] }

/-- Same as `envOk` with the database failing. -/
def envDb : Env :=
  { envOk with dbFail := true }

/-- Same as `envOk` but qrcode/sharp/sendgrid fail for unit 1. -/
def envFail1 : Env :=
  { envOk with unitOk := fun k => k != 1 }

/-- The cart of the spec's end-to-end scenario. -/
def cartReg : List CartItem :=
  [{ type := some "regular", quantity := some 2, name := some "Regular Ticket" }]

def custOk : Customer := { email := some "a@x.com" }

def mdOk : Metadata := { full_name := some "Jane Doe", cart := some cartReg }

def dataOk : EventData :=
  { customer := some custOk, metadata := some mdOk
    reference := some "abc123", amount := some 10000 }

/-- The spec's end-to-end `charge.success` event. -/
def evOk : PEvent := { event := some "charge.success", data := some dataOk }

def parseOk : String → Option PEvent := fun _ => some evOk

def reqOk : Request := { rawBody := "BODY", signature := "sig-BODY" }

/-- A validly signed event of a different type. -/
def evOther : PEvent := { event := some "charge.dispute.create", data := some dataOk }

def parseOther : String → Option PEvent := fun _ => some evOther

/-- `JSON.parse` throwing: the raw body is not valid JSON. -/
def parseBad : String → Option PEvent := fun _ => none

def mdNoCart : Metadata := { full_name := some "Jane Doe", cart := none }

def dataNoCart : EventData :=
  { customer := some custOk, metadata := some mdNoCart
    reference := some "nocart1", amount := some 5000 }

def evNoCart : PEvent := { event := some "charge.success", data := some dataNoCart }

def parseNoCart : String → Option PEvent := fun _ => some evNoCart

/-! Claim theorems. -/

/-- C2: a request whose raw body's hex HMAC-SHA512 under the secret
differs from the `x-paystack-signature` header is answered 401 and
nothing else happens: the Purchase collection is untouched and no side
effect (no save, no email) occurs. -/
theorem webhook_bad_signature_rejected (env : Env) (secret : String)
    (parseJson : String → Option PEvent) (ledger : Ledger) (req : Request)
    (h : env.hmac secret req.rawBody ≠ req.signature) :
    webhookHandler env secret parseJson ledger req =
      { status := some 401, ledger := ledger, trace := [], threw := false } := by
  simp [webhookHandler, h]

/-- Closed instance of `webhook_bad_signature_rejected`. -/
theorem webhook_bad_signature_rejected_witness :
    webhookHandler envOk "sk" parseOk [] { rawBody := "BODY", signature := "forged" } =
      { status := some 401, ledger := [], trace := [], threw := false } :=
  webhook_bad_signature_rejected envOk "sk" parseOk []
    { rawBody := "BODY", signature := "forged" } (by decide)

/-- C7: a validly signed event whose `event` field is not
`charge.success` is acknowledged with 200 and nothing else happens: no
Purchase is persisted and no email is sent. -/
theorem webhook_other_event_ignored (env : Env) (secret : String)
    (parseJson : String → Option PEvent) (ledger : Ledger) (req : Request)
    (ev : PEvent)
    (hsig : env.hmac secret req.rawBody = req.signature)
    (hparse : parseJson req.rawBody = some ev)
    (hev : ev.event ≠ some "charge.success") :
    webhookHandler env secret parseJson ledger req =
      { status := some 200, ledger := ledger, trace := [], threw := false } := by
  simp [webhookHandler, hsig, hparse, hev]

/-- Closed instance of `webhook_other_event_ignored`. -/
theorem webhook_other_event_ignored_witness :
    webhookHandler envOk "sk" parseOther [] reqOk =
      { status := some 200, ledger := [], trace := [], threw := false } :=
  webhook_other_event_ignored envOk "sk" parseOther [] reqOk evOther
    (by decide) rfl (by decide)

/-- C4 as stated is false: a validly signed, non-duplicate request whose
body is not valid JSON makes `JSON.parse` at server.js line 43 throw, so
the handler raises and never responds 200 (the collection here is empty,
so no duplicate delivery is involved; the signature check passes). -/
theorem webhook_always_acks_counterexample :
    envOk.hmac "sk" "notjson" = "sig-notjson" ∧
    (webhookHandler envOk "sk" parseBad [] { rawBody := "notjson", signature := "sig-notjson" }).threw
      = true ∧
    (webhookHandler envOk "sk" parseBad [] { rawBody := "notjson", signature := "sig-notjson" }).status
      = none := by
  decide

/-- C4 (amended): a request that passes signature verification, whose
body parses as JSON, and — when the event is `charge.success` — whose
`data` is present with `customer` and `metadata` objects, completes
without an uncaught exception and is answered 200, for every ledger
outcome (saved, duplicate, or other failure) and all unit outcomes. -/
theorem webhook_wellformed_always_acks (env : Env) (secret : String)
    (parseJson : String → Option PEvent) (ledger : Ledger) (req : Request)
    (ev : PEvent)
    (hsig : env.hmac secret req.rawBody = req.signature)
    (hparse : parseJson req.rawBody = some ev)
    (hshape : ev.event = some "charge.success" →
      ∃ d, ev.data = some d ∧ d.customer.isSome ∧ d.metadata.isSome) :
    (webhookHandler env secret parseJson ledger req).threw = false ∧
    (webhookHandler env secret parseJson ledger req).status = some 200 := by
  by_cases hev : ev.event = some "charge.success"
  · obtain ⟨d, hd, hc, hm⟩ := hshape hev
    obtain ⟨c, hc2⟩ := Option.isSome_iff_exists.mp hc
    obtain ⟨m, hm2⟩ := Option.isSome_iff_exists.mp hm
    simp only [webhookHandler, hsig, ne_eq, not_true_eq_false, if_false, hparse,
      hev, if_true, hd, hc2, hm2]
    constructor <;> (split <;> rfl)
  · simp [webhookHandler, hsig, hparse, hev]

/-- Closed instance of `webhook_wellformed_always_acks`. -/
theorem webhook_wellformed_always_acks_witness :
    (webhookHandler envOk "sk" parseOk [] reqOk).threw = false ∧
    (webhookHandler envOk "sk" parseOk [] reqOk).status = some 200 :=
  webhook_wellformed_always_acks envOk "sk" parseOk [] reqOk evOk
    (by decide) rfl (fun _ => ⟨dataOk, rfl, by decide, by decide⟩)

/-- C6: when `newPurchase.save()` rejects with an error other than the
duplicate-key error (here: the database failing), the error is only
logged (`dbError false`), nothing is persisted, and the handler still
runs per-unit fulfillment over the whole cart before answering 200;
an early return without fulfillment happens only in the duplicate-key
branch. -/
theorem webhook_db_failure_still_fulfills (env : Env) (secret : String)
    (parseJson : String → Option PEvent) (ledger : Ledger) (req : Request)
    (ev : PEvent) (d : EventData) (c : Customer) (md : Metadata)
    (hsig : env.hmac secret req.rawBody = req.signature)
    (hparse : parseJson req.rawBody = some ev)
    (hev : ev.event = some "charge.success")
    (hd : ev.data = some d) (hc : d.customer = some c) (hmd : d.metadata = some md)
    (hdb : env.dbFail = true) :
    webhookHandler env secret parseJson ledger req =
      { status := some 200, ledger := ledger
        trace := Action.dbError false :: fulfillCart env c.email (md.cart.getD [])
        threw := false } := by
  simp [webhookHandler, hsig, hparse, hev, hd, hc, hmd, trySave, hdb]

/-- Closed instance of `webhook_db_failure_still_fulfills`. -/
theorem webhook_db_failure_still_fulfills_witness :
    webhookHandler envDb "sk" parseOk [] reqOk =
      { status := some 200, ledger := []
        trace := Action.dbError false :: fulfillCart envDb (some "a@x.com") cartReg
        threw := false } :=
  webhook_db_failure_still_fulfills envDb "sk" parseOk [] reqOk evOk dataOk custOk mdOk
    (by decide) rfl rfl rfl rfl rfl rfl

/-- C9: for a validly signed `charge.success` event (with the fields the
handler destructures present), the first recorded side effect is the
outcome of the ledger write — `saved` or `dbError` — and every later
side effect belongs to per-unit fulfillment: the `newPurchase.save()`
at lines 49-59 completes before the unit loop at lines 73-106 starts. -/
theorem webhook_ledger_write_first (env : Env) (secret : String)
    (parseJson : String → Option PEvent) (ledger : Ledger) (req : Request)
    (ev : PEvent) (d : EventData) (c : Customer) (md : Metadata)
    (hsig : env.hmac secret req.rawBody = req.signature)
    (hparse : parseJson req.rawBody = some ev)
    (hev : ev.event = some "charge.success")
    (hd : ev.data = some d) (hc : d.customer = some c) (hmd : d.metadata = some md) :
    ∃ dbAct rest,
      (webhookHandler env secret parseJson ledger req).trace = dbAct :: rest ∧
      dbAct.isLedgerAct = true ∧ ∀ a ∈ rest, a.isUnitAct = true := by
  simp only [webhookHandler, hsig, ne_eq, not_true_eq_false, if_false, hparse,
    hev, if_true, hd, hc, hmd]
  split
  · exact ⟨Action.dbError true, [], rfl, rfl, by intro a ha; cases ha⟩
  · exact ⟨Action.dbError false, _, rfl, rfl, fulfillCart_all_unitAct env c.email _⟩
  · exact ⟨Action.saved d.reference, _, rfl, rfl, fulfillCart_all_unitAct env c.email _⟩

/-- Closed instance of `webhook_ledger_write_first`. -/
theorem webhook_ledger_write_first_witness :
    ∃ dbAct rest,
      (webhookHandler envOk "sk" parseOk [] reqOk).trace = dbAct :: rest ∧
      dbAct.isLedgerAct = true ∧ ∀ a ∈ rest, a.isUnitAct = true :=
  webhook_ledger_write_first envOk "sk" parseOk [] reqOk evOk dataOk custOk mdOk
    (by decide) rfl rfl rfl rfl rfl

/-- C10: a validly signed, well-formed `charge.success` event whose
`metadata` has no `cart` field (so `metadata.cart || []` yields `[]`)
still persists one Purchase with empty `inventory` for its reference,
sends no email (the unit loop runs zero times), and is answered 200. -/
theorem webhook_missing_cart_persists_empty (env : Env) (secret : String)
    (parseJson : String → Option PEvent) (ledger : Ledger) (req : Request)
    (ev : PEvent) (d : EventData) (c : Customer) (md : Metadata)
    (R nm em : String) (amt : Int)
    (hsig : env.hmac secret req.rawBody = req.signature)
    (hparse : parseJson req.rawBody = some ev)
    (hev : ev.event = some "charge.success")
    (hd : ev.data = some d) (hc : d.customer = some c) (hmd : d.metadata = some md)
    (hcart : md.cart = none)
    (hnm : md.full_name = some nm) (hem : c.email = some em)
    (hamt : d.amount = some amt) (href : d.reference = some R)
    (hdb : env.dbFail = false)
    (hfresh : (ledger.any fun p => p.paystackReference == some R) = false) :
    webhookHandler env secret parseJson ledger req =
      { status := some 200
        ledger := ledger ++ [PurchaseRecord.mk (some nm) (some em) [] (some amt) (some R)]
        trace := [Action.saved (some R)]
        threw := false } := by
  simp [webhookHandler, hsig, hparse, hev, hd, hc, hmd, hcart, trySave, hdb,
    validRecord, hnm, hem, hamt, href, hfresh, fulfillCart, fulfillCartAux]

/-- Closed instance of `webhook_missing_cart_persists_empty`. -/
theorem webhook_missing_cart_persists_empty_witness :
    webhookHandler envOk "sk" parseNoCart [] reqOk =
      { status := some 200
        ledger := [PurchaseRecord.mk (some "Jane Doe") (some "a@x.com") [] (some 5000) (some "nocart1")]
        trace := [Action.saved (some "nocart1")]
        threw := false } :=
  webhook_missing_cart_persists_empty envOk "sk" parseNoCart [] reqOk evNoCart
    dataNoCart custOk mdNoCart "nocart1" "Jane Doe" "a@x.com" 5000
    (by decide) rfl rfl rfl rfl rfl rfl rfl rfl rfl rfl rfl rfl

/-- C1: delivering the same well-formed `charge.success` event twice
(same raw body, hence same reference `R`) against a healthy database
leaves exactly one Purchase stored for `R`; the second invocation's
insert hits the unique `paystackReference` index (`dbError true`, the
11000 duplicate-key error), is answered 200, leaves the collection
unchanged, and runs no unit fulfillment — its only side effect is the
caught duplicate-key error, so no email is sent by it. -/
theorem webhook_duplicate_delivery_idempotent (env1 env2 : Env) (secret : String)
    (parseJson : String → Option PEvent) (ledger : Ledger) (req : Request)
    (ev : PEvent) (d : EventData) (c : Customer) (md : Metadata)
    (R nm em : String) (amt : Int)
    (hsig1 : env1.hmac secret req.rawBody = req.signature)
    (hsig2 : env2.hmac secret req.rawBody = req.signature)
    (hparse : parseJson req.rawBody = some ev)
    (hev : ev.event = some "charge.success")
    (hd : ev.data = some d) (hc : d.customer = some c) (hmd : d.metadata = some md)
    (hnm : md.full_name = some nm) (hem : c.email = some em)
    (hamt : d.amount = some amt) (href : d.reference = some R)
    (hdb1 : env1.dbFail = false) (hdb2 : env2.dbFail = false)
    (hfresh : (ledger.any fun p => p.paystackReference == some R) = false) :
    refCount (webhookHandler env1 secret parseJson ledger req).ledger (some R) = 1 ∧
    webhookHandler env2 secret parseJson
        (webhookHandler env1 secret parseJson ledger req).ledger req =
      { status := some 200
        ledger := (webhookHandler env1 secret parseJson ledger req).ledger
        trace := [Action.dbError true]
        threw := false } := by
  have h1 : (webhookHandler env1 secret parseJson ledger req).ledger =
      ledger ++ [PurchaseRecord.mk md.full_name c.email
        ((md.cart.getD []).map fun it => InvItem.mk it.type it.quantity it.name)
        d.amount d.reference] := by
    simp [webhookHandler, hsig1, hparse, hev, hd, hc, hmd, trySave, hdb1,
      validRecord, hnm, hem, hamt, href, hfresh]
  have hfilter : ledger.filter (fun p => p.paystackReference == some R) = [] := by
    rw [List.filter_eq_nil_iff]
    intro p hp
    rw [List.any_eq_false] at hfresh
    exact hfresh p hp
  have h2 : webhookHandler env2 secret parseJson
      (ledger ++ [PurchaseRecord.mk md.full_name c.email
        ((md.cart.getD []).map fun it => InvItem.mk it.type it.quantity it.name)
        d.amount d.reference]) req =
      { status := some 200
        ledger := ledger ++ [PurchaseRecord.mk md.full_name c.email
          ((md.cart.getD []).map fun it => InvItem.mk it.type it.quantity it.name)
          d.amount d.reference]
        trace := [Action.dbError true]
        threw := false } := by
    simp [webhookHandler, hsig2, hparse, hev, hd, hc, hmd, trySave, hdb2,
      validRecord, hnm, hem, hamt, href]
  refine ⟨?_, ?_⟩
  · rw [h1]
    unfold refCount
    rw [List.filter_append, hfilter]
    simp [href]
  · rw [h1, h2]

/-- Closed instance of `webhook_duplicate_delivery_idempotent`. -/
theorem webhook_duplicate_delivery_idempotent_witness :
    refCount (webhookHandler envOk "sk" parseOk [] reqOk).ledger (some "abc123") = 1 ∧
    webhookHandler envOk "sk" parseOk
        (webhookHandler envOk "sk" parseOk [] reqOk).ledger reqOk =
      { status := some 200
        ledger := (webhookHandler envOk "sk" parseOk [] reqOk).ledger
        trace := [Action.dbError true]
        threw := false } :=
  webhook_duplicate_delivery_idempotent envOk envOk "sk" parseOk [] reqOk evOk
    dataOk custOk mdOk "abc123" "Jane Doe" "a@x.com" 10000
    (by decide) (by decide) rfl rfl rfl rfl rfl rfl rfl rfl rfl rfl rfl rfl

/-- A cart with a zero-quantity middle line. -/
def cartZ : List CartItem :=
  [CartItem.mk (some "regular") (some 2) (some "Regular Ticket"),
   CartItem.mk (some "vip") (some 0) (some "VIP Table"),
   CartItem.mk (some "student") (some 1) (some "Student Ticket")]

/-- A two-line cart expanding to three units. -/
def cart3 : List CartItem :=
  [CartItem.mk (some "regular") (some 2) (some "Regular Ticket"),
   CartItem.mk (some "vip") (some 1) (some "VIP Ticket")]

def md3 : Metadata := { full_name := some "Jane Doe", cart := some cart3 }

def data3 : EventData :=
  { customer := some custOk, metadata := some md3
    reference := some "ref3", amount := some 30000 }

def ev3 : PEvent := { event := some "charge.success", data := some data3 }

def parse3 : String → Option PEvent := fun _ => some ev3

/-- C3: for a well-formed `charge.success` event, when generation or
dispatch fails for exactly the unit at position `j` (missing asset,
sharp or sendgrid error: `env.unitOk j = false`), every other unit of
the same cart still gets its ticket generated and its email sent, and
the failing unit contributes only a caught, logged `unitFailed` — no
sibling is aborted. -/
theorem webhook_unit_failure_isolated (env : Env) (secret : String)
    (parseJson : String → Option PEvent) (ledger : Ledger) (req : Request)
    (ev : PEvent) (d : EventData) (c : Customer) (md : Metadata)
    (cart : List CartItem) (R nm em : String) (amt : Int) (j : Nat)
    (hsig : env.hmac secret req.rawBody = req.signature)
    (hparse : parseJson req.rawBody = some ev)
    (hev : ev.event = some "charge.success")
    (hd : ev.data = some d) (hc : d.customer = some c) (hmd : d.metadata = some md)
    (hcart : md.cart = some cart)
    (hnm : md.full_name = some nm) (hem : c.email = some em)
    (hamt : d.amount = some amt) (href : d.reference = some R)
    (hdb : env.dbFail = false)
    (hfresh : (ledger.any fun p => p.paystackReference == some R) = false)
    (hty : ∀ u ∈ expand cart, u.ty.isSome = true)
    (hfail : env.unitOk j = false)
    (hok : ∀ k, k ≠ j → env.unitOk k = true) :
    ∃ rest, (webhookHandler env secret parseJson ledger req).trace =
        Action.saved (some R) :: rest ∧
      rest.length = (expand cart).length ∧
      (∀ k, k < (expand cart).length → k ≠ j →
        ∃ u t, (expand cart).get? k = some u ∧ u.ty = some t ∧
          rest.get? k =
            some (Action.emailSent (some em) (ticketId t (env.randBytes k)) u)) ∧
      (∀ u, (expand cart).get? j = some u →
        rest.get? j = some (Action.unitFailed u)) := by
  have htr : (webhookHandler env secret parseJson ledger req).trace =
      Action.saved (some R) :: fulfillCart env (some em) cart := by
    simp [webhookHandler, hsig, hparse, hev, hd, hc, hmd, hcart, trySave, hdb,
      validRecord, hnm, hem, hamt, href, hfresh]
  refine ⟨fulfillCart env (some em) cart, htr, ?_, ?_, ?_⟩
  · rw [fulfillCart_eq, mapIdxFrom_length]
  · intro k hk hkj
    obtain ⟨u, hu⟩ : ∃ u, (expand cart).get? k = some u := by
      rw [List.get?_eq_get hk]
      exact ⟨_, rfl⟩
    have hmem : u ∈ expand cart := List.get?_mem hu
    obtain ⟨t, ht⟩ := Option.isSome_iff_exists.mp (hty _ hmem)
    refine ⟨u, t, hu, ht, ?_⟩
    rw [fulfillCart_eq, mapIdxFrom_get, hu]
    simp [unitAction, ht, hok k hkj]
  · intro u hu
    rw [fulfillCart_eq, mapIdxFrom_get, hu]
    cases hty2 : u.ty with
    | none => simp [unitAction, hty2]
    | some t => simp [unitAction, hty2, hfail]

/-- Closed instance of `webhook_unit_failure_isolated` (three units, the
middle one failing). -/
theorem webhook_unit_failure_isolated_witness :
    ∃ rest, (webhookHandler envFail1 "sk" parse3 [] reqOk).trace =
        Action.saved (some "ref3") :: rest ∧
      rest.length = (expand cart3).length ∧
      (∀ k, k < (expand cart3).length → k ≠ 1 →
        ∃ u t, (expand cart3).get? k = some u ∧ u.ty = some t ∧
          rest.get? k =
            some (Action.emailSent (some "a@x.com") (ticketId t (envFail1.randBytes k)) u)) ∧
      (∀ u, (expand cart3).get? 1 = some u →
        rest.get? 1 = some (Action.unitFailed u)) :=
  webhook_unit_failure_isolated envFail1 "sk" parse3 [] reqOk ev3 data3 custOk md3
    cart3 "ref3" "Jane Doe" "a@x.com" 30000 1
    (by decide) rfl rfl rfl rfl rfl rfl rfl rfl rfl rfl rfl rfl
    (by decide) (by decide) (fun k hk => bne_iff_ne.mpr hk)

/-- C5: for a cart whose line quantities are the non-negative integers
`qs`, the fulfillment loop processes exactly `qs.sum` units; the units
it processes are exactly the spec expander's output, in cart-line order
then intra-line index order (pairwise lexicographic on line and index);
each unit carries its line's `type` and `name`; and a line of quantity
zero contributes no unit. -/
theorem fulfillment_processes_every_unit (env : Env) (e : Option String)
    (cart : List CartItem) (qs : List Nat)
    (hq : cart.map CartItem.quantity = qs.map fun q => some ((q : Nat) : Int)) :
    (fulfillCart env e cart).length = qs.sum ∧
    (fulfillCart env e cart).filterMap Action.unitOf = expand cart ∧
    (∀ u ∈ expand cart, ∃ item, cart.get? u.lineIdx = some item ∧
      u.ty = item.type ∧ u.nm = item.name ∧ u.unitIdx < iters item) ∧
    List.Pairwise (fun u v : TUnit => u.lineIdx < v.lineIdx ∨
      (u.lineIdx = v.lineIdx ∧ u.unitIdx < v.unitIdx)) (expand cart) ∧
    (∀ li item, cart.get? li = some item → item.quantity = some 0 →
      ∀ u ∈ expand cart, u.lineIdx ≠ li) := by
  have hmap := map_iters_eq cart qs hq
  refine ⟨?_, ?_, ?_, expandAux_pairwise cart 0, ?_⟩
  · rw [fulfillCart_eq, mapIdxFrom_length, expand, expandAux_length, hmap]
  · rw [fulfillCart_eq, mapIdxFrom_unitOf]
  · intro u hu
    obtain ⟨j, item, hj, hl, ht, hn, hq2⟩ := expandAux_mem_char 0 cart u hu
    refine ⟨item, ?_, ht, hn, hq2⟩
    rw [hl]
    simpa using hj
  · intro li item hli hq0 u hu hul
    obtain ⟨j, item2, hj, hl, ht, hn, hq2⟩ := expandAux_mem_char 0 cart u hu
    have hj2 : j = li := by omega
    rw [hj2, hli] at hj
    have h2 : item = item2 := Option.some.inj hj
    have h3 : iters item2 = 0 := by simp [iters, ← h2, hq0]
    omega

/-- Closed instance of `fulfillment_processes_every_unit` (a cart with a
zero-quantity middle line). -/
theorem fulfillment_processes_every_unit_witness :
    (fulfillCart envOk (some "a@x.com") cartZ).length = ([2, 0, 1] : List Nat).sum ∧
    (fulfillCart envOk (some "a@x.com") cartZ).filterMap Action.unitOf = expand cartZ ∧
    (∀ u ∈ expand cartZ, ∃ item, cartZ.get? u.lineIdx = some item ∧
      u.ty = item.type ∧ u.nm = item.name ∧ u.unitIdx < iters item) ∧
    List.Pairwise (fun u v : TUnit => u.lineIdx < v.lineIdx ∨
      (u.lineIdx = v.lineIdx ∧ u.unitIdx < v.unitIdx)) (expand cartZ) ∧
    (∀ li item, cartZ.get? li = some item → item.quantity = some 0 →
      ∀ u ∈ expand cartZ, u.lineIdx ≠ li) :=
  fulfillment_processes_every_unit envOk (some "a@x.com") cartZ [2, 0, 1] rfl

/-- C8: the generated ticket identifier is the fixed program tag `ULES`,
the unit's `type` uppercased, and 4 random bytes encoded as 8 uppercase
hexadecimal characters, joined by hyphens. -/
theorem ticketId_format (ty : String) (bs : List Nat)
    (hlen : bs.length = 4) (hbs : ∀ b ∈ bs, b < 256) :
    ∃ s, ticketId ty bs = "ULES-" ++ jsToUpper ty ++ "-" ++ s ∧
      s.length = 8 ∧ ∀ ch ∈ s.data, ch ∈ upperHexChars := by
  refine ⟨jsToUpper (bytesToHex bs), rfl, ?_, ?_⟩
  · have h0 : (jsToUpper (bytesToHex bs)).length =
        ((bs.flatMap byteHex).map Char.toUpper).length := rfl
    rw [h0, List.length_map, flatMap_byteHex_length, hlen]
  · intro ch hch
    have hch2 : ch ∈ (bs.flatMap byteHex).map Char.toUpper := hch
    rcases List.mem_map.mp hch2 with ⟨c, hc, rfl⟩
    rcases List.mem_flatMap.mp hc with ⟨b, hb, hcb⟩
    exact byteHex_mem b (hbs b hb) c hcb

/-- Closed instance of `ticketId_format`. -/
theorem ticketId_format_witness :
    ∃ s, ticketId "regular" [18, 171, 205, 239] =
        "ULES-" ++ jsToUpper "regular" ++ "-" ++ s ∧
      s.length = 8 ∧ ∀ ch ∈ s.data, ch ∈ upperHexChars :=
  ticketId_format "regular" [18, 171, 205, 239] rfl (by decide)

end TicketBackend
